import Mathlib

/-
Verification of the files_manager core: file lifecycle, access control,
pagination, session logout, and the asynchronous thumbnail pipeline.

The JavaScript source is shallowly embedded: request handlers become pure
Lean functions over explicit state (the files collection, the users
collection, the TTL key-value store, the job queue); JS objects whose key
sets matter are association lists of string pairs; nullable JS strings are
Option String. Helper modules absent from the source tree
(utils/basic.js, utils/user.js, utils/file.js) are modelled from the
specification and marked as such in their doc comments.
-/

namespace FilesManager

/-- Truthiness of a nullable JS string: null, undefined and the empty
string are falsy, every other string is truthy. -/
def jsTruthy : Option String → Bool
  | none => false
  | some s => !(s == "")

/-- Hexadecimal digit test used by ObjectId well-formedness. -/
def isHexChar (c : Char) : Bool :=
  c.isDigit || (('a' ≤ c) && (c ≤ 'f'))

/-- Modelled from the spec: basicUtils.isValidId (utils/basic.js is missing
from the source tree). The spec requires ids to be well-formed MongoDB
ObjectIds; a well-formed ObjectId string is 24 hexadecimal characters. -/
def isValidId (s : String) : Bool :=
  (s.length == 24) && s.data.all isHexChar

/-- Validity of a nullable id: an absent identity is never a valid id
(the spec fails such callers as Unauthenticated). -/
def isValidIdOpt : Option String → Bool
  | none => false
  | some s => isValidId s

/-- File metadata record as persisted in the files collection: owner,
name, type (folder, file or image), visibility, parent (the string "0" is
the root sentinel) and local blob path. -/
structure FileRec where
  id : String
  userId : String
  name : String
  ftype : String
  isPublic : Bool
  parentId : String
  localPath : String
  deriving Repr, DecidableEq

/-- Job payload as a JS object: an association list from field names to
string values. -/
abbrev Payload := List (String × String)

/-- Field access task.data.<k> on a payload: some value when the field is
present, none (undefined) otherwise. -/
def getField (p : Payload) (k : String) : Option String :=
  (p.find? (fun kv => kv.1 == k)).map (fun kv => kv.2)

/-- Thumbnail job payload enqueued by FilesController.postUpload for image
uploads: an object with exactly the fields fileId and userId. -/
def thumbnailJobPayload (fileId userId : String) : Payload :=
  [("fileId", fileId), ("userId", userId)]

/-- Outcome of the thumbnail worker before generation: either it throws
with a message, or it proceeds to thumbnail generation holding the fetched
file record. -/
inductive WorkerResult where
  | errorThrown (msg : String)
  | proceeds (file : FileRec)
  deriving Repr, DecidableEq

/-- Thumbnail worker handler (fileProcessingQueue.process): destructures
fileId and ownerId from task.data, rejects falsy or ill-formed ids,
fetches the file record scoped to both ids, and proceeds to generation
only when the record exists. -/
def workerProcess (files : List FileRec) (data : Payload) : WorkerResult :=
  let fileId := getField data "fileId"
  let ownerId := getField data "ownerId"
  if !jsTruthy ownerId then .errorThrown "Owner ID is required."
  else if !jsTruthy fileId then .errorThrown "File ID is required."
  else
    let fid := fileId.getD ""
    let oid := ownerId.getD ""
    if !(isValidId fid) || !(isValidId oid) then
      .errorThrown "Invalid File ID or Owner ID."
    else
      match files.find? (fun f => (f.id == fid) && (f.userId == oid)) with
      | none => .errorThrown "File not found."
      | some f => .proceeds f

/-- Claim C1: the worker rejects every payload that postUpload enqueues.
The producer sends the fields fileId and userId, but the worker reads the
field ownerId, which is absent, so the worker always throws the
missing-owner error instead of proceeding to thumbnail generation. -/
theorem workerRejectsUploadPayload (files : List FileRec)
    (fileId userId : String) :
    workerProcess files (thumbnailJobPayload fileId userId) =
      .errorThrown "Owner ID is required." := by
  simp [workerProcess, thumbnailJobPayload, getField, List.find?, jsTruthy]

/-- State of the TTL key-value store (Redis) as an association list from
keys to values; expiry is not modelled, presence of a key stands for an
unexpired entry. -/
abbrev RStore := List (String × String)

/-- Lookup redisClient.get(key): value of the key when present. -/
def redisGet (store : RStore) (k : String) : Option String :=
  (store.find? (fun kv => kv.1 == k)).map (fun kv => kv.2)

/-- Deletion redisClient.del(key): removes the entry for the key; deleting
an absent key leaves the store unchanged. -/
def redisDel (store : RStore) (k : String) : RStore :=
  store.filter (fun kv => !(kv.1 == k))

/-- Modelled from the spec: userUtils.getUserIdAndKey (utils/user.js is
missing from the source tree). Derives the session key auth_<token> from
the request token and resolves it in the TTL store, returning the resolved
user id (none when absent) together with the key. -/
def getUserIdAndKey (store : RStore) (token : String) :
    Option String × String :=
  (redisGet store ("auth_" ++ token), "auth_" ++ token)

/-- Session Manager resolve(token): the TTL-store lookup of auth_<token>;
none means no identity. -/
def resolveToken (store : RStore) (token : String) : Option String :=
  redisGet store ("auth_" ++ token)

/-- Response of AuthController.getDisconnect: 401 Unauthorized error, or
204 no content. -/
inductive DisconnectResult where
  | unauthorized
  | noContent
  deriving Repr, DecidableEq

/-- Logout handler AuthController.getDisconnect: resolves the token; if no
user id resolves it answers 401 Unauthorized and touches nothing;
otherwise it deletes the session key and answers 204. Returns the response
together with the store after the call. -/
def getDisconnect (store : RStore) (token : String) :
    DisconnectResult × RStore :=
  let r := getUserIdAndKey store token
  if !jsTruthy r.1 then (.unauthorized, store)
  else (.noContent, redisDel store r.2)

theorem find?_redisDel_self (store : RStore) (k : String) :
    (redisDel store k).find? (fun kv => kv.1 == k) = none := by
  rw [List.find?_eq_none]
  intro x hx
  rw [redisDel, List.mem_filter] at hx
  simpa using hx.2

theorem redisGet_redisDel_self (store : RStore) (k : String) :
    redisGet (redisDel store k) k = none := by
  rw [redisGet, find?_redisDel_self, Option.map_none']

theorem redisDel_absent (store : RStore) (k : String)
    (h : redisGet store k = none) : redisDel store k = store := by
  rw [redisGet, Option.map_eq_none', List.find?_eq_none] at h
  rw [redisDel, List.filter_eq_self.mpr]
  intro a ha
  simpa using h a ha

/-- Claim C2 counterexample: calling logout a second time on the same,
now absent, token IS an error: the second getDisconnect answers 401
Unauthorized rather than 204. -/
theorem secondLogoutIs401 :
    (getDisconnect
      (getDisconnect [("auth_t", "64a0b1c2d3e4f50123456789")] "t").2 "t").1 =
      .unauthorized := by decide

/-- Claim C2 (amended): when the token resolves, logout deletes the
session entry and answers 204; resolve of the same token afterwards yields
no identity; a second logout on the now absent token answers 401
Unauthorized and leaves the store unchanged; and the underlying TTL-store
delete of the absent key itself is not an error (it leaves the store
unchanged). -/
theorem logoutDeleteThenSecond401 (store : RStore) (token uid : String)
    (hres : resolveToken store token = some uid) (hne : uid ≠ "") :
    (getDisconnect store token).1 = .noContent ∧
    resolveToken (getDisconnect store token).2 token = none ∧
    getDisconnect (getDisconnect store token).2 token =
      (.unauthorized, (getDisconnect store token).2) ∧
    redisDel (getDisconnect store token).2 ("auth_" ++ token) =
      (getDisconnect store token).2 := by
  rw [resolveToken] at hres
  have htr : jsTruthy (redisGet store ("auth_" ++ token)) = true := by
    rw [hres, jsTruthy]
    simpa using hne
  have h1 : getDisconnect store token =
      (.noContent, redisDel store ("auth_" ++ token)) := by
    rw [getDisconnect, getUserIdAndKey]
    simp [htr]
  have hgone : redisGet (redisDel store ("auth_" ++ token))
      ("auth_" ++ token) = none := redisGet_redisDel_self store _
  refine ⟨by rw [h1], ?_, ?_, ?_⟩
  · rw [h1, resolveToken, hgone]
  · rw [h1, getDisconnect, getUserIdAndKey]
    simp [hgone, jsTruthy]
  · rw [h1]
    exact redisDel_absent _ _ hgone

/-- Witness for C2 at a concrete store and token. -/
theorem logoutDeleteThenSecond401_witness :
    (getDisconnect [("auth_t", "64a0b1c2d3e4f50123456789")] "t").1 =
      .noContent ∧
    resolveToken
      (getDisconnect [("auth_t", "64a0b1c2d3e4f50123456789")] "t").2 "t" =
      none ∧
    getDisconnect
      (getDisconnect [("auth_t", "64a0b1c2d3e4f50123456789")] "t").2 "t" =
      (.unauthorized,
        (getDisconnect [("auth_t", "64a0b1c2d3e4f50123456789")] "t").2) ∧
    redisDel (getDisconnect [("auth_t", "64a0b1c2d3e4f50123456789")] "t").2
      ("auth_" ++ "t") =
      (getDisconnect [("auth_t", "64a0b1c2d3e4f50123456789")] "t").2 :=
  logoutDeleteThenSecond401 [("auth_t", "64a0b1c2d3e4f50123456789")] "t"
    "64a0b1c2d3e4f50123456789" (by decide) (by decide)

/-- Decimal digit string to a natural number, most significant digit
first. -/
def digitsToNat (cs : List Char) : Nat :=
  cs.foldl (fun acc c => acc * 10 + (c.toNat - 48)) 0

/-- JS Number(x) applied to the page query parameter, modelled for the
inputs the claims range over: an absent parameter gives NaN (none), the
empty string gives 0, a decimal integer string with an optional leading
minus gives that integer, and every other string gives NaN. -/
def jsNumber : Option String → Option Int
  | none => none
  | some s =>
    if s == "" then some 0
    else if s.data.all Char.isDigit then some (Int.ofNat (digitsToNat s.data))
    else if (s.data.head? == some '-') && !(s.data.tail.isEmpty) &&
        s.data.tail.all Char.isDigit then
      some (-(Int.ofNat (digitsToNat s.data.tail)))
    else none

/-- Page computation of FilesController.getIndex:
page = Number(request.query.page) || 0, followed by the
Number.isNaN(page) guard that resets NaN to 0. A nonzero number, negative
included, is truthy and is kept as is. -/
def parsePage (q : Option String) : Int :=
  match jsNumber q with
  | none => 0
  | some n => if n == 0 then 0 else n

/-- Aggregation pipeline of FilesController.getIndex: match records with
the given parentId, skip page * 20, limit 20. MongoDB rejects a negative
skip amount, so a negative page makes the aggregation fail (none). -/
def runPipeline (files : List FileRec) (parentId : String) (page : Int) :
    Option (List FileRec) :=
  if page < 0 then none
  else some (((files.filter (fun f => f.parentId == parentId)).drop
    (page.toNat * 20)).take 20)

/-- Claim C3 counterexample: the page input -1 is negative yet is NOT
normalized to 0: parsePage keeps it as -1, and the resulting negative
skip is rejected by the store rather than treated as page 0. -/
theorem negativePageNotNormalized :
    parsePage (some "-1") = -1 ∧ parsePage (some "-1") ≠ 0 ∧
    runPipeline [] "0" (parsePage (some "-1")) = none := by decide

/-- Claim C3 (amended): a non-numeric page input is normalized to 0, but a
negative numeric page is kept and its negative skip is rejected by the
store; for a non-negative page p the listing skips p * 20 matching records
and returns at most 20, so a parent with 45 children yields 20 items at
page 0, 5 items at page 2, and an empty list at page 3. -/
theorem getIndexPagination (q : Option String) (files : List FileRec)
    (pid : String) (p : Nat) (hq : jsNumber q = none)
    (h45 : (files.filter (fun f => f.parentId == pid)).length = 45) :
    parsePage q = 0 ∧
    runPipeline files pid (-1) = none ∧
    runPipeline files pid (Int.ofNat p) =
      some (((files.filter (fun f => f.parentId == pid)).drop
        (p * 20)).take 20) ∧
    (runPipeline files pid 0).map List.length = some 20 ∧
    (runPipeline files pid 2).map List.length = some 5 ∧
    runPipeline files pid 3 = some [] := by
  have hnn : ∀ n : Nat, runPipeline files pid (Int.ofNat n) =
      some (((files.filter (fun f => f.parentId == pid)).drop
        (n * 20)).take 20) := by
    intro n
    rw [runPipeline, if_neg (by exact Int.not_lt.mpr (Int.ofNat_nonneg n))]
    rfl
  refine ⟨by rw [parsePage, hq], by rw [runPipeline]; rfl, hnn p, ?_, ?_, ?_⟩
  · have h0 := hnn 0
    rw [show ((0 : Int) = Int.ofNat 0) from rfl, h0]
    simp [List.length_take, List.length_drop, h45]
  · have h2 := hnn 2
    rw [show ((2 : Int) = Int.ofNat 2) from rfl, h2]
    simp [List.length_take, List.length_drop, h45]
  · have h3 := hnn 3
    rw [show ((3 : Int) = Int.ofNat 3) from rfl, h3]
    have hdrop : (files.filter (fun f => f.parentId == pid)).drop (3 * 20) =
        [] := by
      apply List.drop_eq_nil_of_le
      rw [h45]
      norm_num
    rw [hdrop]
    rfl

/-- Sample file record used by concrete witnesses. -/
def sampleChild : FileRec :=
  { id := "64a0b1c2d3e4f50123456789"
    userId := "64a0b1c2d3e4f50123456780"
    name := "child.txt"
    ftype := "file"
    isPublic := false
    parentId := "0"
    localPath := "/tmp/files_manager/u1" }

/-- Witness for C3: a parent with 45 children and a non-numeric page. -/
theorem getIndexPagination_witness :
    parsePage (some "abc") = 0 ∧
    runPipeline (List.replicate 45 sampleChild) "0" (-1) = none ∧
    runPipeline (List.replicate 45 sampleChild) "0" (Int.ofNat 2) =
      some ((((List.replicate 45 sampleChild).filter
        (fun f => f.parentId == "0")).drop (2 * 20)).take 20) ∧
    (runPipeline (List.replicate 45 sampleChild) "0" 0).map List.length =
      some 20 ∧
    (runPipeline (List.replicate 45 sampleChild) "0" 2).map List.length =
      some 5 ∧
    runPipeline (List.replicate 45 sampleChild) "0" 3 = some [] :=
  getIndexPagination (some "abc") (List.replicate 45 sampleChild) "0" 2
    (by decide) (by decide)

/-- Modelled from the spec: userUtils.getUser on an _id filter
(utils/user.js is missing from the source tree). Looks the id up among the
registered user ids; an absent id resolves to a fresh ObjectId and matches
no user. -/
def getUser (users : List String) (userId : Option String) : Option String :=
  match userId with
  | none => none
  | some u => users.find? (fun x => x == u)

/-- Modelled from the spec: fileUtils.isOwnerAndPublic (utils/file.js is
missing from the source tree). The canRead policy: true iff the record is
public or the caller is its owner. -/
def isOwnerAndPublic (file : FileRec) (userId : Option String) : Bool :=
  file.isPublic || (userId == some file.userId)

/-- Response of FilesController.getFile: 404 Not found, the 400
folder-has-no-content error, or 200 with the blob bytes and the record
name that fixes the MIME type. -/
inductive ContentResult where
  | notFound
  | folderError
  | ok (data : String) (name : String)
  deriving Repr, DecidableEq

/-- Variant path resolution of content retrieval: a size naming a
generated width reads localPath_<width>, any other size reads
localPath. -/
def variantPath (file : FileRec) (size : Nat) : String :=
  if (size == 500) || (size == 250) || (size == 100) then
    file.localPath ++ "_" ++ toString size
  else file.localPath

/-- Content retrieval handler FilesController.getFile: validates the file
id, fetches the record by id alone (not ownership-scoped), applies
isOwnerAndPublic, answers 404 when the record is absent or the policy
denies, 400 for folders, otherwise reads the resolved variant path from
the filesystem fs (404 when the path is missing, modelled from the spec
since fileUtils.getFileData is missing from the source tree). -/
def getFileEndpoint (files : List FileRec) (fs : String → Option String)
    (userId : Option String) (fileId : String) (size : Nat) :
    ContentResult :=
  if !(isValidId fileId) then .notFound
  else
    match files.find? (fun f => f.id == fileId) with
    | none => .notFound
    | some file =>
      if !(isOwnerAndPublic file userId) then .notFound
      else if file.ftype == "folder" then .folderError
      else
        match fs (variantPath file size) with
        | none => .notFound
        | some d => .ok d file.name

/-- Claim C4: a private file requested by a non-owner and a file id that
matches no record both answer 404 Not found, with no distinguishing
signal between the two responses. -/
theorem privateNonOwnerIndistinguishable (files : List FileRec)
    (fs : String → Option String) (uid : Option String)
    (fidP fidA : String) (file : FileRec) (size : Nat)
    (hP : files.find? (fun f => f.id == fidP) = some file)
    (hpriv : file.isPublic = false) (hown : uid ≠ some file.userId)
    (hA : files.find? (fun f => f.id == fidA) = none) :
    getFileEndpoint files fs uid fidP size = .notFound ∧
    getFileEndpoint files fs uid fidA size = .notFound ∧
    getFileEndpoint files fs uid fidP size =
      getFileEndpoint files fs uid fidA size := by
  have hcanP : isOwnerAndPublic file uid = false := by
    rw [isOwnerAndPublic, hpriv]
    simpa using hown
  have h1 : getFileEndpoint files fs uid fidP size = .notFound := by
    rw [getFileEndpoint]
    rcases hvP : isValidId fidP with _ | _
    · rfl
    · rw [if_neg (by simp [hvP]), hP]
      simp [hcanP]
  have h2 : getFileEndpoint files fs uid fidA size = .notFound := by
    rw [getFileEndpoint]
    rcases hvA : isValidId fidA with _ | _
    · rfl
    · rw [if_neg (by simp [hvA]), hA]
  exact ⟨h1, h2, by rw [h1, h2]⟩

/-- Sample private file owned by a fixed user, used by witnesses. -/
def samplePrivateFile : FileRec :=
  { id := "64a0b1c2d3e4f50123456789"
    userId := "64a0b1c2d3e4f50123456780"
    name := "secret.png"
    ftype := "image"
    isPublic := false
    parentId := "0"
    localPath := "/tmp/files_manager/u2" }

/-- Witness for C4: a non-owner caller against the private sample file and
against an id with no record. -/
theorem privateNonOwnerIndistinguishable_witness :
    getFileEndpoint [samplePrivateFile] (fun _ => none)
      (some "64a0b1c2d3e4f50123456781") "64a0b1c2d3e4f50123456789" 0 =
      .notFound ∧
    getFileEndpoint [samplePrivateFile] (fun _ => none)
      (some "64a0b1c2d3e4f50123456781") "64a0b1c2d3e4f50123456700" 0 =
      .notFound ∧
    getFileEndpoint [samplePrivateFile] (fun _ => none)
      (some "64a0b1c2d3e4f50123456781") "64a0b1c2d3e4f50123456789" 0 =
    getFileEndpoint [samplePrivateFile] (fun _ => none)
      (some "64a0b1c2d3e4f50123456781") "64a0b1c2d3e4f50123456700" 0 :=
  privateNonOwnerIndistinguishable [samplePrivateFile] (fun _ => none)
    (some "64a0b1c2d3e4f50123456781") "64a0b1c2d3e4f50123456789"
    "64a0b1c2d3e4f50123456700" samplePrivateFile 0
    (by decide) (by decide) (by decide) (by decide)

/-- Response of FilesController.getShow: 401 Unauthorized, 404 Not found,
or 200 with the record. -/
inductive ShowResult where
  | unauthorized
  | notFound
  | ok (file : FileRec)
  deriving Repr, DecidableEq

/-- Single-record read FilesController.getShow: resolves the caller (401
when the user does not exist), answers 404 when either id is ill-formed,
fetches the record scoped to both the file id and the caller id, and
answers 404 when that scoped lookup is empty. -/
def getShow (users : List String) (files : List FileRec)
    (userId : Option String) (fileId : String) : ShowResult :=
  match getUser users userId with
  | none => .unauthorized
  | some uid =>
    if !(isValidId fileId) || !(isValidId uid) then .notFound
    else
      match files.find? (fun f => (f.id == fileId) && (f.userId == uid)) with
      | none => .notFound
      | some r => .ok r

/-- Claim C6: the single-record read is ownership-scoped: when every
record carrying the requested id belongs to another user, the result is
404 Not found, identical to the result on the store with those records
absent altogether. -/
theorem getShowOwnershipScoped (users : List String) (files : List FileRec)
    (userId : Option String) (uid fileId : String)
    (hu : getUser users userId = some uid) (hv : isValidId uid = true)
    (hf : isValidId fileId = true)
    (hforeign : ∀ f ∈ files, f.id = fileId → f.userId ≠ uid) :
    getShow users files userId fileId = .notFound ∧
    getShow users (files.filter (fun f => !(f.id == fileId))) userId fileId
      = .notFound ∧
    getShow users files userId fileId =
      getShow users (files.filter (fun f => !(f.id == fileId))) userId
        fileId := by
  have hn1 : files.find?
      (fun f => (f.id == fileId) && (f.userId == uid)) = none := by
    rw [List.find?_eq_none]
    intro f hfmem
    simp only [Bool.and_eq_true, beq_iff_eq, not_and]
    exact fun hid => hforeign f hfmem hid
  have hn2 : (files.filter (fun f => !(f.id == fileId))).find?
      (fun f => (f.id == fileId) && (f.userId == uid)) = none := by
    rw [List.find?_eq_none]
    intro f hfmem
    rw [List.mem_filter] at hfmem
    simp only [Bool.and_eq_true, beq_iff_eq, not_and]
    intro hid
    exact absurd (by simpa using hfmem.2) (by simp [hid])
  have h1 : getShow users files userId fileId = .notFound := by
    rw [getShow, hu]
    simp only [hv, hf]
    rw [if_neg (by simp), hn1]
  have h2 : getShow users (files.filter (fun f => !(f.id == fileId)))
      userId fileId = .notFound := by
    rw [getShow, hu]
    simp only [hv, hf]
    rw [if_neg (by simp), hn2]
  exact ⟨h1, h2, by rw [h1, h2]⟩

/-- Witness for C6: a caller who owns nothing reads an id owned by
another user. -/
theorem getShowOwnershipScoped_witness :
    getShow ["64a0b1c2d3e4f50123456781"] [samplePrivateFile]
      (some "64a0b1c2d3e4f50123456781") "64a0b1c2d3e4f50123456789" =
      .notFound ∧
    getShow ["64a0b1c2d3e4f50123456781"]
      ([samplePrivateFile].filter
        (fun f => !(f.id == "64a0b1c2d3e4f50123456789")))
      (some "64a0b1c2d3e4f50123456781") "64a0b1c2d3e4f50123456789" =
      .notFound ∧
    getShow ["64a0b1c2d3e4f50123456781"] [samplePrivateFile]
      (some "64a0b1c2d3e4f50123456781") "64a0b1c2d3e4f50123456789" =
    getShow ["64a0b1c2d3e4f50123456781"]
      ([samplePrivateFile].filter
        (fun f => !(f.id == "64a0b1c2d3e4f50123456789")))
      (some "64a0b1c2d3e4f50123456781") "64a0b1c2d3e4f50123456789" :=
  getShowOwnershipScoped ["64a0b1c2d3e4f50123456781"] [samplePrivateFile]
    (some "64a0b1c2d3e4f50123456781") "64a0b1c2d3e4f50123456781"
    "64a0b1c2d3e4f50123456789" (by decide) (by decide) (by decide)
    (by decide)

/-- Response of publish and unpublish: 401 Unauthorized, 404 Not found, or
200 with the updated record. -/
inductive PubResult where
  | unauthorized
  | notFound
  | ok (updated : FileRec)
  deriving Repr, DecidableEq

/-- Modelled from the spec: fileUtils.publishUnpublish (utils/file.js is
missing from the source tree). Resolves the caller identity
(Unauthenticated when absent); fetches the record by id; requires strict
ownership (canWrite); answers NotFound when the record is absent or not
owned by the caller; otherwise sets isPublic to the requested boolean,
persists the record, and returns it. The pair carries the files collection
after the call. -/
def publishUnpublish (files : List FileRec) (userId : Option String)
    (fileId : String) (setPublic : Bool) : PubResult × List FileRec :=
  match userId with
  | none => (.unauthorized, files)
  | some uid =>
    match files.find? (fun f => f.id == fileId) with
    | none => (.notFound, files)
    | some file =>
      if !(file.userId == uid) then (.notFound, files)
      else
        (.ok { file with isPublic := setPublic },
          files.map (fun f =>
            if f.id == fileId then { file with isPublic := setPublic }
            else f))

/-- Publish handler FilesController.putPublish: publishUnpublish with
true. -/
def putPublish (files : List FileRec) (userId : Option String)
    (fileId : String) : PubResult × List FileRec :=
  publishUnpublish files userId fileId true

/-- Unpublish handler FilesController.putUnpublish: publishUnpublish with
false. -/
def putUnpublish (files : List FileRec) (userId : Option String)
    (fileId : String) : PubResult × List FileRec :=
  publishUnpublish files userId fileId false

theorem find?_map_update (files : List FileRec) (fid : String)
    (u : FileRec) (hu : (u.id == fid) = true) (file : FileRec)
    (h : files.find? (fun f => f.id == fid) = some file) :
    (files.map (fun f => if f.id == fid then u else f)).find?
      (fun f => f.id == fid) = some u := by
  induction files with
  | nil => simp at h
  | cons a rest ih =>
    rw [List.map_cons]
    rcases ha : (a.id == fid) with _ | _
    · rw [List.find?_cons_of_neg _ (by simp [ha])] at h
      rw [if_neg (by simp [ha]), List.find?_cons_of_neg _ (by simp [ha])]
      exact ih h
    · rw [if_pos (by simp [ha]), List.find?_cons_of_pos _ (by simp [hu])]

/-- Claim C5: for the owner, publish followed by unpublish answers the
record with isPublic reset to false and persists that record; for any
caller who is not the owner, either mutation answers 404 Not found and
leaves the collection, hence every isPublic flag, unchanged. -/
theorem publishRoundTripAndNonOwner (files : List FileRec)
    (uid other fid : String) (file : FileRec) (b : Bool)
    (h : files.find? (fun f => f.id == fid) = some file)
    (hown : file.userId = uid) (hother : other ≠ file.userId) :
    (putUnpublish (putPublish files (some uid) fid).2 (some uid) fid).1 =
      .ok { file with isPublic := false } ∧
    ((putUnpublish (putPublish files (some uid) fid).2 (some uid)
      fid).2.find? (fun f => f.id == fid) =
      some { file with isPublic := false }) ∧
    publishUnpublish files (some other) fid b = (.notFound, files) := by
  have hfid : (file.id == fid) = true := by
    have h2 := List.find?_some (p := fun f => f.id == fid) (l := files) h
    simpa using h2
  have hpub : putPublish files (some uid) fid =
      (.ok { file with isPublic := true },
        files.map (fun f =>
          if f.id == fid then { file with isPublic := true } else f)) := by
    rw [putPublish, publishUnpublish, h]
    simp [hown]
  have hfind1 : (putPublish files (some uid) fid).2.find?
      (fun f => f.id == fid) = some { file with isPublic := true } := by
    rw [hpub]
    exact find?_map_update files fid _ (by simpa using hfid) file h
  have hunpub : putUnpublish (putPublish files (some uid) fid).2
      (some uid) fid =
      (.ok { file with isPublic := false },
        (putPublish files (some uid) fid).2.map (fun f =>
          if f.id == fid then { file with isPublic := false } else f)) := by
    rw [putUnpublish, publishUnpublish, hfind1]
    simp [hown]
  refine ⟨by rw [hunpub], ?_, ?_⟩
  · rw [hunpub]
    exact find?_map_update _ fid _ (by simpa using hfid) _ hfind1
  · have hne : file.userId ≠ other := fun e => hother e.symm
    rw [publishUnpublish, h]
    simp [hne]

/-- Witness for C5: the owner publishes then unpublishes the sample file;
a different user attempts a publish. -/
theorem publishRoundTripAndNonOwner_witness :
    (putUnpublish
      (putPublish [samplePrivateFile] (some "64a0b1c2d3e4f50123456780")
        "64a0b1c2d3e4f50123456789").2
      (some "64a0b1c2d3e4f50123456780") "64a0b1c2d3e4f50123456789").1 =
      .ok { samplePrivateFile with isPublic := false } ∧
    ((putUnpublish
      (putPublish [samplePrivateFile] (some "64a0b1c2d3e4f50123456780")
        "64a0b1c2d3e4f50123456789").2
      (some "64a0b1c2d3e4f50123456780") "64a0b1c2d3e4f50123456789").2.find?
      (fun f => f.id == "64a0b1c2d3e4f50123456789") =
      some { samplePrivateFile with isPublic := false }) ∧
    publishUnpublish [samplePrivateFile] (some "64a0b1c2d3e4f50123456781")
      "64a0b1c2d3e4f50123456789" true = (.notFound, [samplePrivateFile]) :=
  publishRoundTripAndNonOwner [samplePrivateFile]
    "64a0b1c2d3e4f50123456780" "64a0b1c2d3e4f50123456781"
    "64a0b1c2d3e4f50123456789" samplePrivateFile true (by decide)
    (by decide) (by decide)

theorem isValidId_ne_empty (s : String) (h : isValidId s = true) :
    s ≠ "" := by
  intro e
  subst e
  exact absurd h (by decide)

/-- Response of FilesController.getIndex: 401 Unauthorized, a store error
from a rejected aggregation, or 200 with the page of records. -/
inductive IndexResult where
  | unauthorized
  | storeError
  | okList (page : List FileRec)
  deriving Repr, DecidableEq

/-- Normalization of the parentId query parameter: an absent or empty
parameter falls back to the root sentinel, as in
request.query.parentId || the root literal. -/
def normalizeParentId (q : Option String) : String :=
  match q with
  | none => "0"
  | some s => if s == "" then "0" else s

/-- Listing handler FilesController.getIndex: resolves the caller (401
when the user does not exist); normalizes parentId and page; for a
non-root parentId answers 401 on an ill-formed id, and an empty 200 list
when the referenced record is absent or is not a folder; otherwise runs
the match-skip-limit pipeline over the files collection. -/
def getIndex (users : List String) (files : List FileRec)
    (userId : Option String) (parentIdQ pageQ : Option String) :
    IndexResult :=
  match getUser users userId with
  | none => .unauthorized
  | some _ =>
    let parentId := normalizeParentId parentIdQ
    let page := parsePage pageQ
    if !(parentId == "0") then
      if !(isValidId parentId) then .unauthorized
      else
        match files.find? (fun f => f.id == parentId) with
        | none => .okList []
        | some folder =>
          if !(folder.ftype == "folder") then .okList []
          else
            match runPipeline files parentId page with
            | none => .storeError
            | some l => .okList l
    else
      match runPipeline files "0" page with
      | none => .storeError
      | some l => .okList l

/-- Claim C7: a listing under a well-formed non-root parentId succeeds
with an empty page when no folder record carries that id, that is when
the referenced record is absent or exists with a non-folder type. -/
theorem getIndexMissingParentEmptyPage (users : List String)
    (files : List FileRec) (userId : Option String) (pid : String)
    (pageQ : Option String) (uid : String)
    (hu : getUser users userId = some uid) (hroot : pid ≠ "0")
    (hvalid : isValidId pid = true)
    (hpar : ∀ f ∈ files, f.id = pid → f.ftype ≠ "folder") :
    getIndex users files userId (some pid) pageQ = .okList [] := by
  have hne : (pid == "") = false := by
    simpa using isValidId_ne_empty pid hvalid
  have hnorm : normalizeParentId (some pid) = pid := by
    rw [normalizeParentId, if_neg (by simp [hne])]
  rw [getIndex, hu]
  simp only [hnorm]
  rw [if_pos (by simpa using hroot), if_neg (by simp [hvalid])]
  rcases hf : files.find? (fun f => f.id == pid) with _ | folder
  · rw [hf]
  · have hmem : folder ∈ files := List.mem_of_find?_eq_some hf
    have hid : (folder.id == pid) = true := by
      have h2 := List.find?_some (p := fun f => f.id == pid) (l := files) hf
      simpa using h2
    have hft : folder.ftype ≠ "folder" :=
      hpar folder hmem (by simpa using hid)
    rw [hf]
    simp [hft]

/-- Witness for C7: an empty files collection and a valid non-root
parentId. -/
theorem getIndexMissingParentEmptyPage_witness :
    getIndex ["64a0b1c2d3e4f50123456781"] []
      (some "64a0b1c2d3e4f50123456781")
      (some "64a0b1c2d3e4f50123456789") none = .okList [] :=
  getIndexMissingParentEmptyPage ["64a0b1c2d3e4f50123456781"] []
    (some "64a0b1c2d3e4f50123456781") "64a0b1c2d3e4f50123456789" none
    "64a0b1c2d3e4f50123456781" (by decide) (by decide) (by decide)
    (by simp)

/-- Thumbnail generation fan-out of the worker: for each width in
[500, 250, 100] it attempts to generate a thumbnail through gen (the
imageThumbnail call, which may fail) and on success writes the bytes to
localPath_<width>; a failure is caught, turned into a log line, and the
iteration continues. Returns the writes performed and the error log; no
per-width failure escapes to the surrounding job handler. -/
def processThumbnails (gen : Nat → Except String String)
    (localPath : String) : List (String × String) × List String :=
  [500, 250, 100].foldl (fun acc width =>
    match gen width with
    | .ok thumb =>
      (acc.1 ++ [(localPath ++ "_" ++ toString width, thumb)], acc.2)
    | .error e =>
      (acc.1, acc.2 ++
        ["Error creating thumbnail of width " ++ toString width ++ ": "
          ++ e]))
    ([], [])

/-- Claim C8: the per-width attempts are independent: whatever the
outcomes, the writes performed are exactly those of the widths whose
generation succeeded (a failure of one width never removes the writes of
the others), and the log holds exactly one line per failing width; the
fan-out itself always returns, so the job as a whole never fails and is
never re-enqueued by a per-width error. -/
theorem thumbnailWidthsIndependent (gen : Nat → Except String String)
    (localPath : String) :
    (processThumbnails gen localPath).1 =
      [500, 250, 100].filterMap (fun w => (gen w).toOption.map
        (fun t => (localPath ++ "_" ++ toString w, t))) ∧
    (processThumbnails gen localPath).2 =
      [500, 250, 100].filterMap (fun w =>
        match gen w with
        | .ok _ => none
        | .error e =>
          some ("Error creating thumbnail of width " ++ toString w ++ ": "
            ++ e)) := by
  rcases h5 : gen 500 with e5 | t5 <;> rcases h2 : gen 250 with e2 | t2 <;>
    rcases h1 : gen 100 with e1 | t1 <;>
      simp [processThumbnails, h5, h2, h1, Except.toOption]

/-- JS object modelled as an association list with unique keys, in field
insertion order. -/
abbrev Doc := List (String × String)

/-- Deletion of a key, as the JS delete operator on an object whose keys
are unique. -/
def removeKey (d : Doc) (k : String) : Doc :=
  d.filter (fun kv => !(kv.1 == k))

/-- Assignment obj[k] = v on a JS object: replaces the value of an
existing key, appends a fresh one. -/
def objSet (d : Doc) (kv : String × String) : Doc :=
  (d.filter (fun e => !(e.1 == kv.1))) ++ [kv]

/-- Spread of a source object into an object literal: each source field is
assigned in turn, later keys overriding earlier ones. -/
def spreadInto (base u : Doc) : Doc :=
  u.foldl objSet base

/-- Response of UsersController.getMe: 401 Unauthorized, or 200 with the
sanitized user document. -/
inductive MeResult where
  | unauthorized
  | okDoc (body : Doc)
  deriving Repr, DecidableEq

/-- Authenticated-user lookup UsersController.getMe: resolves the token to
a user id, answers 401 when no user document matches, otherwise builds
the response object from id plus the spread user document and deletes the
_id and password keys before answering 200. -/
def getMe (users : List Doc) (userId : Option String) : MeResult :=
  match userId with
  | none => .unauthorized
  | some uid =>
    match users.find? (fun u => getField u "_id" == some uid) with
    | none => .unauthorized
    | some user =>
      .okDoc (removeKey (removeKey
        (spreadInto [("id", (getField user "_id").getD "")] user) "_id")
        "password")

/-- Response of UsersController.postNew: a 400 error message, or 201 with
the response body and the users collection after the insert. -/
inductive PostNewResult where
  | badRequest (msg : String)
  | created (body : Doc) (users : List Doc)
  deriving Repr, DecidableEq

/-- Registration handler UsersController.postNew: answers 400 on a missing
email or password or an already registered email; otherwise hashes the
password, inserts the user document, and answers 201 with a body holding
exactly the id and the email. The parameter hash stands for the external
sha1 library, newId for the id the store assigns to the insert. -/
def postNew (hash : String → String) (users : List Doc)
    (emailQ passwordQ : Option String) (newId : String) : PostNewResult :=
  if !(jsTruthy emailQ) then .badRequest "Missing email"
  else if !(jsTruthy passwordQ) then .badRequest "Missing password"
  else if (users.find?
      (fun u => getField u "email" == some (emailQ.getD ""))).isSome then
    .badRequest "Already exist"
  else
    .created [("id", newId), ("email", emailQ.getD "")]
      (users ++ [[("_id", newId), ("email", emailQ.getD ""),
        ("password", hash (passwordQ.getD ""))]])

theorem not_mem_keys_removeKey (d : Doc) (k : String) :
    k ∉ (removeKey d k).map Prod.fst := by
  intro hmem
  rw [List.mem_map] at hmem
  obtain ⟨kv, hkv, he⟩ := hmem
  rw [removeKey, List.mem_filter] at hkv
  have h2 := hkv.2
  simp only [Bool.not_eq_true'] at h2
  rw [he] at h2
  simp at h2

theorem keys_removeKey_subset (d : Doc) (k x : String)
    (hx : x ∈ (removeKey d k).map Prod.fst) : x ∈ d.map Prod.fst := by
  rw [List.mem_map] at hx ⊢
  obtain ⟨kv, hkv, he⟩ := hx
  exact ⟨kv, (List.mem_filter.mp hkv).1, he⟩

/-- Claim C9: the password hash is never part of a caller-visible
response: a successful registration body has exactly the keys id and
email, and a successful getMe body carries neither the password nor the
_id key. -/
theorem passwordNeverExposed (hash : String → String) (users : List Doc)
    (em pw : Option String) (newId : String) (body : Doc)
    (users2 : List Doc) (musers : List Doc) (userId : Option String)
    (mbody : Doc)
    (hpost : postNew hash users em pw newId = .created body users2)
    (hme : getMe musers userId = .okDoc mbody) :
    body.map Prod.fst = ["id", "email"] ∧
    "password" ∉ mbody.map Prod.fst ∧
    "_id" ∉ mbody.map Prod.fst := by
  refine ⟨?_, ?_, ?_⟩
  · rw [postNew] at hpost
    split_ifs at hpost with h1 h2 h3
    injection hpost with hb hu
    rw [← hb]
    rfl
  all_goals {
    rcases userId with _ | uid
    · rw [getMe] at hme
      exact absurd hme (by simp)
    · rw [getMe] at hme
      rcases hu : musers.find? (fun u => getField u "_id" == some uid)
        with _ | user
      · rw [hu] at hme
        exact absurd hme (by simp)
      · rw [hu] at hme
        injection hme with hb
        rw [← hb]
        first
        | exact not_mem_keys_removeKey _ "password"
        | exact fun hmem => absurd
            (keys_removeKey_subset _ "password" "_id" hmem)
            (not_mem_keys_removeKey _ "_id")
  }

/-- Witness for C9: a fresh registration and a getMe on a one-user
store. -/
theorem passwordNeverExposed_witness :
    ([("id", "64a0b1c2d3e4f50123456780"), ("email", "a@b.c")] :
      Doc).map Prod.fst = ["id", "email"] ∧
    "password" ∉
      (([("id", "64a0b1c2d3e4f50123456780"), ("email", "a@b.c")] :
        Doc).map Prod.fst) ∧
    "_id" ∉
      (([("id", "64a0b1c2d3e4f50123456780"), ("email", "a@b.c")] :
        Doc).map Prod.fst) :=
  passwordNeverExposed (fun s => s) [] (some "a@b.c") (some "pw")
    "64a0b1c2d3e4f50123456780"
    [("id", "64a0b1c2d3e4f50123456780"), ("email", "a@b.c")]
    [[("_id", "64a0b1c2d3e4f50123456780"), ("email", "a@b.c"),
      ("password", "pw")]]
    [[("_id", "64a0b1c2d3e4f50123456780"), ("email", "a@b.c"),
      ("password", "pw")]]
    (some "64a0b1c2d3e4f50123456780")
    [("id", "64a0b1c2d3e4f50123456780"), ("email", "a@b.c")]
    (by decide) (by decide)

/-- Side-effect state visible to the upload handler: the job queue, the
files collection, and the written blobs. -/
structure UploadState where
  queue : List Payload
  files : List FileRec
  blobs : List (String × String)
  deriving Repr, DecidableEq

/-- Outcome of the modelled prefix of FilesController.postUpload: a 401,
or the handler proceeding past the user lookup with the resolved id. -/
inductive UploadOutcome where
  | unauthorized
  | proceeded (uid : String)
  deriving Repr, DecidableEq

/-- Upload handler FilesController.postUpload up to the user lookup:
answers 401 when the token does not resolve to a well-formed user id;
otherwise runs the pre-lookup branch that enqueues an empty payload when
the id is falsy and the body type is image, then answers 401 when no user
matches the id; otherwise proceeds to the remainder of the handler (body
validation, save, success enqueue), which is outside this claim. -/
def postUploadPrefix (users : List String) (st : UploadState)
    (userId : Option String) (bodyType : Option String) :
    UploadOutcome × UploadState :=
  if !(isValidIdOpt userId) then (.unauthorized, st)
  else
    let st1 := if !(jsTruthy userId) && (bodyType == some "image")
      then { st with queue := st.queue ++ [[]] } else st
    match getUser users userId with
    | none => (.unauthorized, st1)
    | some uid => (.proceeded uid, st1)

/-- Claim C10: an upload whose token does not resolve to a valid user id
answers 401 with the state untouched: nothing is enqueued, persisted or
written; and on every input the pre-lookup image enqueue branch adds
nothing (a well-formed id is truthy, so the branch is unreachable after
the early return), hence the state is also untouched when the user lookup
fails. -/
theorem uploadUnauthNoSideEffects (users : List String) (st : UploadState)
    (userId bodyType v b : Option String)
    (hbad : isValidIdOpt userId = false) :
    postUploadPrefix users st userId bodyType = (.unauthorized, st) ∧
    (postUploadPrefix users st v b).2 = st := by
  constructor
  · rw [postUploadPrefix]
    simp [hbad]
  · rw [postUploadPrefix]
    rcases hv : isValidIdOpt v with _ | _
    · simp
    · rcases v with _ | s
      · exact absurd hv (by simp [isValidIdOpt])
      · have hs : isValidId s = true := by simpa [isValidIdOpt] using hv
        have htr : jsTruthy (some s) = true := by
          rw [jsTruthy]
          simpa using isValidId_ne_empty s hs
        simp only [hv, htr]
        cases getUser users (some s) <;> simp

/-- Witness for C10: an absent token against an empty state. -/
theorem uploadUnauthNoSideEffects_witness :
    postUploadPrefix [] { queue := [], files := [], blobs := [] } none
      (some "image") = (.unauthorized,
        { queue := [], files := [], blobs := [] }) ∧
    (postUploadPrefix [] { queue := [], files := [], blobs := [] }
      (some "64a0b1c2d3e4f50123456781") (some "image")).2 =
      { queue := [], files := [], blobs := [] } :=
  uploadUnauthNoSideEffects [] { queue := [], files := [], blobs := [] }
    none (some "image") (some "64a0b1c2d3e4f50123456781") (some "image")
    (by decide)

end FilesManager
